import Mathlib

/-!
# Verification of the Ubuntu image fetcher core

A shallow embedding of `src/ubuntu_image_fetcher.py` and proofs about it.

The repository's core is three Python functions:
* `get_filename_from_url(url, response)` — filename resolution,
* `is_duplicate_image(filepath, content)` — content-hash duplicate detection,
* `download_image(url, download_dir)` — the fetch orchestrator.

The embedding models:
* Python `str` operations used by the source (`in`, `split(sep)[1]`,
  `strip`, `startswith`, slicing) as executable functions on `List Char`;
* `urllib.parse.urlparse(url).path` (CPython semantics, including the
  `ValueError: Invalid IPv6 URL` raised for an unbalanced bracket in the
  authority; the non-ASCII-netloc NFKC check is outside the model);
* `os.path.basename` / `os.path.join` with POSIX separators;
* `int(str)` as used on the `Content-Length` header;
* the network, the filesystem and `os.makedirs` as an explicit
  environment, and Python exceptions as an `Except` layer whose handler
  mirrors the `except` clauses of `download_image`;
* `hashlib.md5(..).hexdigest()` as an arbitrary hash parameter: every
  theorem below quantifies over the hash functions, so each holds for the
  real MD5 in particular.

Machine bytes of a response body are modelled as `List Nat`.
-/

namespace UbuntuFetcher

/-! ## Python string primitives -/

/-- Single-quote character (Python `'`). -/
def sq : String := String.singleton (Char.ofNat 39)

/-- Double-quote character (Python `"`). -/
def dq : String := String.singleton (Char.ofNat 34)

/-- Characters of `l` before the first occurrence of a delimiter in
`delims`, paired with the rest (delimiter included). -/
def takeUntilAny (delims : List Char) : List Char → List Char × List Char
  | [] => ([], [])
  | c :: cs =>
    if delims.contains c then ([], c :: cs)
    else
      let p := takeUntilAny delims cs
      (c :: p.1, p.2)

/-- Split at the first occurrence of character `t`: `some (before, after)`,
or `none` when `t` does not occur. -/
def splitFirst (t : Char) : List Char → Option (List Char × List Char)
  | [] => none
  | c :: cs =>
    if c = t then some ([], cs)
    else (splitFirst t cs).map (fun p => (c :: p.1, p.2))

/-- First occurrence of the substring `sep`: `some (before, after)` where
`after` starts right past the occurrence; `none` when absent.  Mirrors
Python `str.find` / the non-overlapping scan of `str.split`. -/
def findSub (sep : List Char) : List Char → Option (List Char × List Char)
  | [] => if sep = [] then some ([], []) else none
  | c :: cs =>
    if sep.isPrefixOf (c :: cs) then some ([], (c :: cs).drop sep.length)
    else (findSub sep cs).map (fun p => (c :: p.1, p.2))

/-- Python `sub in s` for strings. -/
def pyContains (s sub : String) : Bool := (findSub sub.data s.data).isSome

/-- Python `c in s` for a single character. -/
def pyInChar (c : Char) (s : String) : Bool := s.data.any (fun x => x == c)

/-- Python `s.split(sep)[1]`: the text between the first and the second
occurrence of `sep` (to the end when `sep` occurs once).  Returns `""`
when `sep` does not occur (the source only evaluates it under an
`in`-guard). -/
def pySplit1 (s sep : String) : String :=
  match findSub sep.data s.data with
  | none => ""
  | some (_, aft) =>
    match findSub sep.data aft with
    | none => ⟨aft⟩
    | some (mid, _) => ⟨mid⟩

/-- Python `s.startswith(pre)`. -/
def pyStartsWith (s pre : String) : Bool := pre.data.isPrefixOf s.data

/-- Python `s.endswith(suf)`. -/
def pyEndsWith (s suf : String) : Bool := suf.data.isSuffixOf s.data

/-- Python `s[:n]`. -/
def pyTake (s : String) (n : Nat) : String := ⟨s.data.take n⟩

/-- Python `s.strip(chars)`: drop characters of `cs` from both ends. -/
def stripChars (cs : List Char) (l : List Char) : List Char :=
  ((l.dropWhile (fun c => cs.contains c)).reverse.dropWhile
    (fun c => cs.contains c)).reverse

/-- The source's `.strip('"\'')`. -/
def stripQuotes (s : String) : String :=
  ⟨stripChars [Char.ofNat 34, Char.ofNat 39] s.data⟩

/-! ## `int()` on strings (used on `Content-Length`) -/

/-- ASCII whitespace accepted around a Python integer literal. -/
def isPyWs (c : Char) : Bool :=
  c == ' ' || c == '\t' || c == '\n' || c == '\r' ||
  c == Char.ofNat 11 || c == Char.ofNat 12

/-- Digits with optional single underscores between digits (Python int
literal tail); accumulates the value. -/
def digitsAux (acc : Nat) : List Char → Option Nat
  | [] => some acc
  | '_' :: c :: cs =>
    if c.isDigit then digitsAux (acc * 10 + (c.toNat - 48)) cs else none
  | ['_'] => none
  | c :: cs =>
    if c.isDigit then digitsAux (acc * 10 + (c.toNat - 48)) cs else none

/-- A nonempty digit run (no leading underscore). -/
def startDigits : List Char → Option Nat
  | [] => none
  | c :: cs => if c.isDigit then digitsAux (c.toNat - 48) cs else none

/-- Python `int(s)` for a decimal string: surrounding whitespace, an
optional sign, then digits with optional single underscores between
digits.  `none` models the `ValueError` raised otherwise.  (Non-ASCII
digits are outside the model.) -/
def pyInt? (s : String) : Option Int :=
  let t := ((s.data.dropWhile isPyWs).reverse.dropWhile isPyWs).reverse
  match t with
  | '+' :: rest => (startDigits rest).map Int.ofNat
  | '-' :: rest => (startDigits rest).map (fun n => -(n : Int))
  | rest => (startDigits rest).map Int.ofNat

/-! ## `urllib.parse.urlparse` (path component) -/

/-- ASCII letter. -/
def asciiAlpha (c : Char) : Bool :=
  decide (('a' ≤ c ∧ c ≤ 'z') ∨ ('A' ≤ c ∧ c ≤ 'Z'))

/-- CPython `scheme_chars`. -/
def schemeChar (c : Char) : Bool :=
  asciiAlpha c || decide ('0' ≤ c ∧ c ≤ '9') || c == '+' || c == '-' || c == '.'

/-- ASCII lower-casing (schemes are ASCII-checked before lowering). -/
def asciiLower (c : Char) : Char :=
  if 'A' ≤ c ∧ c ≤ 'Z' then Char.ofNat (c.toNat + 32) else c

/-- Result of `urlsplit` restricted to the fields the program reads. -/
structure SplitUrl where
  scheme : String
  netloc : String
  path : String
deriving Repr, DecidableEq

/-- CPython `urllib.parse.urlsplit`: strip leading C0-control/space
characters, remove tab/CR/LF, split off `scheme:`, `//netloc` (raising
`ValueError` for an unbalanced square bracket), `#fragment` and
`?query`.  The error value models the raised `ValueError`. -/
def pyUrlsplit (url : String) : Except String SplitUrl :=
  let l1 := url.data.dropWhile (fun c => c.toNat ≤ 32)
  let l := l1.filter (fun c => !(c == '\t' || c == '\r' || c == '\n'))
  let p :=
    match splitFirst ':' l with
    | some (c :: cs, post) =>
      if asciiAlpha c && (c :: cs).all schemeChar then
        ((c :: cs).map asciiLower, post)
      else ([], l)
    | _ => ([], l)
  let scheme := p.1
  let rest := p.2
  match rest with
  | '/' :: '/' :: r =>
    let pr := takeUntilAny ['/', '?', '#'] r
    let netloc := pr.1
    if (netloc.contains '[' && !netloc.contains ']') ||
        (netloc.contains ']' && !netloc.contains '[') then
      .error "Invalid IPv6 URL"
    else
      let rest3 := (takeUntilAny ['#'] pr.2).1
      .ok ⟨⟨scheme⟩, ⟨netloc⟩, ⟨(takeUntilAny ['?'] rest3).1⟩⟩
  | _ =>
    let rest3 := (takeUntilAny ['#'] rest).1
    .ok ⟨⟨scheme⟩, "", ⟨(takeUntilAny ['?'] rest3).1⟩⟩

/-- CPython `uses_params`: schemes whose path gets a `;params` split. -/
def usesParams : List String :=
  ["", "ftp", "hdl", "prospero", "http", "imap", "https", "shttp", "rtsp",
   "rtspu", "sip", "sips", "mms", "sftp", "tel"]

/-- CPython `_splitparams`: cut the path at the first `;` inside its last
segment (the whole path when it has no `/`).  Only called when `;` occurs. -/
def dropParams (l : List Char) : List Char :=
  match splitFirst '/' l.reverse with
  | some (revLast, revRest) =>
    revRest.reverse ++ '/' :: (takeUntilAny [';'] revLast.reverse).1
  | none => (takeUntilAny [';'] l).1

/-- CPython `urllib.parse.urlparse`: `urlsplit` plus the `;params` split
for schemes in `uses_params`. -/
def pyUrlparse (url : String) : Except String SplitUrl :=
  match pyUrlsplit url with
  | .error e => .error e
  | .ok s =>
    if usesParams.contains s.scheme && pyInChar ';' s.path then
      .ok ⟨s.scheme, s.netloc, ⟨dropParams s.path.data⟩⟩
    else .ok s

/-- `posixpath.basename`: everything after the last `/`. -/
def basename (p : String) : String :=
  ⟨((takeUntilAny ['/'] p.data.reverse).1).reverse⟩

/-- `posixpath.join` for two components, as `os.path.join` on POSIX. -/
def posixJoin (a b : String) : String :=
  match b.data with
  | '/' :: _ => b
  | _ =>
    if a = "" ∨ a.data.getLast? = some '/' then a ++ b else a ++ "/" ++ b

/-! ## Data model -/

/-- An HTTP response as the program observes it: status code, the three
headers it reads (`none` = header absent; `requests` headers are
case-insensitive, so a single field per header suffices), and the body
bytes (`response.content`). -/
structure Response where
  status : Nat
  contentType : Option String := none
  contentDisposition : Option String := none
  contentLength : Option String := none
  content : List Nat := []
deriving Repr, DecidableEq

/-- The filesystem visible to the program: content stored at each path
(`none` = no file), and whether opening the path for reading succeeds
(`false` models the `IOError` branch). -/
structure FileSys where
  file : String → Option (List Nat)
  readable : String → Bool

/-- Outcome of `requests.get`: one of the exception classes the source
catches, or a response. -/
inductive NetResult where
  | timeout
  | connectionFailure
  | requestError (detail : String)
  | ok (resp : Response)

/-- Environment of one `download_image` call: whether `os.makedirs`
raises (with the exception text), the network, whether the final
`open(..., 'wb')`/`write` raises, and the filesystem. -/
structure Env where
  mkdirError : Option String
  net : NetResult
  writeError : Option String
  fs : FileSys

/-- The `(message, success)` pair returned by `download_image`, extended
with the write the call performed (`none` = no file written), so that
state-change claims are statable. -/
structure Outcome where
  message : String
  success : Bool
  written : Option (String × List Nat)

/-- Apply the recorded write to the filesystem (a written file reads
back successfully). -/
def applyWrite (fs : FileSys) : Option (String × List Nat) → FileSys
  | none => fs
  | some (p, c) =>
    ⟨fun q => if q = p then some c else fs.file q,
     fun q => if q = p then true else fs.readable q⟩

/-! ## `get_filename_from_url` -/

/- Lines 19-21: `filename = os.path.basename(urlparse(url).path)` is the
first candidate; `basename` is applied to the parsed path. -/

/-- Lines 23-27: if the path candidate is empty or has no `.`, consult
`Content-Disposition` for a `filename=` directive and strip quotes. -/
def nameAfterDisp (cand : String) (resp : Response) : String :=
  if cand = "" ∨ pyInChar '.' cand = false then
    let content_disp := (resp.contentDisposition).getD ""
    if pyContains content_disp "filename=" then
      stripQuotes (pySplit1 content_disp "filename=")
    else cand
  else cand

/-- Lines 29-42: fallback name `downloaded_image_<hash8>.<ext>` from the
URL hash and the `Content-Type` header.  Note the source tests
`'image/' in content_type` (substring), not `startswith`, and takes
`content_type.split('/')[1]`. -/
def synthName (md5hex : String → String) (url : String) (resp : Response) : String :=
  let url_hash := pyTake (md5hex url) 8
  let content_type := (resp.contentType).getD ""
  if pyContains content_type "image/" then
    let ext := pySplit1 content_type "/"
    let ext := if ext = "jpeg" then "jpg" else ext
    "downloaded_image_" ++ url_hash ++ "." ++ ext
  else
    "downloaded_image_" ++ url_hash ++ ".bin"

/-- Lines 14-44.  `md5hex` abstracts `hashlib.md5(url.encode()).hexdigest()`.
The `.error` case models the `ValueError` that `urlparse` raises (and the
function propagates) on a malformed authority. -/
def get_filename_from_url (md5hex : String → String) (url : String)
    (resp : Response) : Except String String :=
  match pyUrlparse url with
  | .error e => .error e
  | .ok parsed =>
    let filename := nameAfterDisp (basename parsed.path) resp
    if filename = "" ∨ pyInChar '.' filename = false then
      .ok (synthName md5hex url resp)
    else .ok filename

/-! ## `is_duplicate_image` -/

/-- Lines 46-63.  `md5` abstracts `hashlib.md5(bytes).hexdigest()`; the
source compares the hex digests of the new content and of the existing
file's full contents, returning `False` when the file is absent or
unreadable (`except IOError`). -/
def is_duplicate_image (md5 : List Nat → String) (fs : FileSys)
    (filepath : String) (content : List Nat) : Bool :=
  match fs.file filepath with
  | none => false
  | some existing =>
    if fs.readable filepath then decide (md5 content = md5 existing)
    else false

/-! ## `download_image` -/

/-- Python exceptions distinguished by the `except` clauses of
`download_image` (lines 109-118), in catch order. -/
inductive Exc where
  | timeout
  | httpError (status : Nat)
  | connFailure
  | requestException (detail : String)
  | other (detail : String)
deriving Repr, DecidableEq

def timeoutMsg : String :=
  "✗ Connection timeout: The community member took too long to respond."

def httpErrorMsg (status : Nat) : String :=
  "✗ HTTP error: The community server responded with " ++ toString status

def connectionErrorMsg : String :=
  "✗ Connection error: Could not reach the community member."

def networkErrorMsg (detail : String) : String :=
  "✗ Network error: " ++ detail

def unexpectedMsg (detail : String) : String :=
  "✗ An unexpected error occurred: " ++ detail

def notImageMsg (content_type : String) : String :=
  "✗ Respectful warning: The URL does not point to an image (Content-Type: "
    ++ content_type ++ ")."

def sizeLimitMsg : String :=
  "✗ Respectful warning: File size exceeds 10MB limit."

def duplicateMsg (filename : String) : String :=
  "✓ Community resource preserved: " ++ sq ++ filename ++ sq
    ++ " already exists in our collection."

def savedMsg (filename filepath : String) : String :=
  "✓ Successfully fetched: " ++ filename ++ "\n✓ Image saved to " ++ filepath

/-- The message each `except` clause of lines 109-118 produces. -/
def excMessage : Exc → String
  | .timeout => timeoutMsg
  | .httpError s => httpErrorMsg s
  | .connFailure => connectionErrorMsg
  | .requestException d => networkErrorMsg d
  | .other d => unexpectedMsg d

/-- Lines 90-93: `content_length = response.headers.get('Content-Length')`;
reject when the header is present, truthy (nonempty) and
`int(content_length) > 10 * 1024 * 1024`.  A malformed value makes
`int()` raise `ValueError` (caught as a generic `Exception`). -/
def sizeGate (cl : Option String) : Except Exc Bool :=
  match cl with
  | none => .ok false
  | some s =>
    if s = "" then .ok false
    else
      match pyInt? s with
      | none =>
        .error (.other ("invalid literal for int() with base 10: "
          ++ sq ++ s ++ sq))
      | some n => .ok (decide (n > 10 * 1024 * 1024))

/-- The `try`-block of `download_image` (lines 70-107), with each raise
point made explicit, in source order: `os.makedirs` (72), the
`urlparse(url).netloc` in the progress print (79), `requests.get` (82),
`raise_for_status` (83, raising `HTTPError` exactly for status 400-599),
the content-type gate (86-88), the size gate (90-93), filename
resolution (96-97), the duplicate check (99-101), and the write
(103-107). -/
def downloadBody (md5s : String → String) (md5b : List Nat → String)
    (env : Env) (url : String) (download_dir : String) : Except Exc Outcome :=
  match env.mkdirError with
  | some d => .error (.other d)
  | none =>
  match pyUrlparse url with
  | .error e => .error (.other e)
  | .ok _ =>
  match env.net with
  | .timeout => .error .timeout
  | .connectionFailure => .error .connFailure
  | .requestError d => .error (.requestException d)
  | .ok resp =>
  if 400 ≤ resp.status ∧ resp.status < 600 then .error (.httpError resp.status)
  else
  let content_type := (resp.contentType).getD ""
  if pyStartsWith content_type "image/" = false then
    .ok ⟨notImageMsg content_type, false, none⟩
  else
  match sizeGate resp.contentLength with
  | .error e => .error e
  | .ok tooBig =>
  if tooBig then .ok ⟨sizeLimitMsg, false, none⟩
  else
  match get_filename_from_url md5s url resp with
  | .error e => .error (.other e)
  | .ok filename =>
  let filepath := posixJoin download_dir filename
  if is_duplicate_image md5b env.fs filepath resp.content then
    .ok ⟨duplicateMsg filename, true, none⟩
  else
  match env.writeError with
  | some d => .error (.other d)
  | none => .ok ⟨savedMsg filename filepath, true, some (filepath, resp.content)⟩

/-- Lines 65-118: the orchestrator.  Every exception raised in the body
is converted by the `except` clauses into a `(message, False)` outcome;
nothing propagates to the caller. -/
def download_image (md5s : String → String) (md5b : List Nat → String)
    (env : Env) (url : String)
    (download_dir : String := "Fetched_Images") : Outcome :=
  match downloadBody md5s md5b env url download_dir with
  | .ok r => r
  | .error e => ⟨excMessage e, false, none⟩

/-! ## Concrete instances used in witnesses and counterexamples -/

/-- A concrete stand-in for the URL hex digest (the theorems quantify over
the hash function; witnesses instantiate it). -/
def hexA : String → String := fun _ => "0123456789abcdef"

/-- A concrete stand-in for the byte-content hex digest. -/
def md5len : List Nat → String := fun l => toString l.length

/-- An empty directory. -/
def fsEmpty : FileSys := ⟨fun _ => none, fun _ => false⟩

/-- A directory holding `d/sunset.jpg` with content `[9, 9]`, readable. -/
def fsSunset : FileSys :=
  ⟨fun p => if p = "d/sunset.jpg" then some [9, 9] else none, fun _ => true⟩

/-- A directory holding `x` with content `[1, 2]`, readable. -/
def fsDup7 : FileSys :=
  ⟨fun p => if p = "x" then some [1, 2] else none, fun _ => true⟩

/-- A 200 `image/jpeg` response whose body `[9, 9]` matches `fsSunset`. -/
def respJpeg : Response :=
  { status := 200, contentType := some "image/jpeg", content := [9, 9] }

def envDup : Env := ⟨none, .ok respJpeg, none, fsSunset⟩

/-- A 200 `image/png` response advertising `Content-Length: 11000000`. -/
def respBig : Response :=
  { status := 200, contentType := some "image/png",
    contentLength := some "11000000" }

def envBig : Env := ⟨none, .ok respBig, none, fsEmpty⟩

/-- A 200 response with no `Content-Type` header at all. -/
def respNoCT : Response := { status := 200 }

def envNoCT : Env := ⟨none, .ok respNoCT, none, fsEmpty⟩

/-- A network that times out. -/
def envT : Env := ⟨none, .timeout, none, fsEmpty⟩

/-- A 304 (not 2xx, not 4xx/5xx) `image/jpeg` response. -/
def resp304 : Response :=
  { status := 304, contentType := some "image/jpeg", content := [7] }

def env304 : Env := ⟨none, .ok resp304, none, fsEmpty⟩

/-- A 404 response. -/
def resp404 : Response := { status := 404 }

def env404 : Env := ⟨none, .ok resp404, none, fsEmpty⟩

/-- A 200 response whose `Content-Type` contains `image/` as a substring
but does not start with it. -/
def respX : Response := { status := 200, contentType := some "x-image/png" }

/-- A `Content-Disposition` value `attachment; filename="pic.png"`. -/
def dispPic : String := "attachment; filename=" ++ dq ++ "pic.png" ++ dq

def respDisp : Response :=
  { status := 200, contentDisposition := some dispPic }

/-- A 200 `image/jpeg` response with no disposition header. -/
def respJ : Response := { status := 200, contentType := some "image/jpeg" }

/-! ## Helper lemmas -/

/-- `(a ++ b).data` unfolds to list append. -/
theorem strdata (a b : String) : (a ++ b).data = a.data ++ b.data := rfl

theorem str_append_empty (s : String) : s ++ "" = s := by
  cases s with
  | mk d => show String.mk (d ++ []) = String.mk d
            rw [List.append_nil]

/-- Two string appends differ when the left parts differ within their
first three characters. -/
theorem ne_of_take3 {p q : String} (a b : String)
    (h : ¬ p.data.take 3 = q.data.take 3)
    (hp : 3 ≤ p.data.length) (hq : 3 ≤ q.data.length) :
    p ++ a ≠ q ++ b := by
  intro he
  apply h
  have hd : p.data ++ a.data = q.data ++ b.data := by
    have := congrArg String.data he
    simpa [strdata] using this
  have ht := congrArg (List.take 3) hd
  rw [List.take_append_eq_append_take, List.take_append_eq_append_take,
    Nat.sub_eq_zero_of_le hp, Nat.sub_eq_zero_of_le hq] at ht
  simpa using ht

/-- A string containing a character is nonempty. -/
theorem ne_empty_of_dot {s : String} (h : pyInChar '.' s = true) : s ≠ "" := by
  intro he
  subst he
  exact absurd h (by decide)

theorem pyInChar_append (c : Char) (a b : String) :
    pyInChar c (a ++ b) = (pyInChar c a || pyInChar c b) := by
  simp [pyInChar, strdata, List.any_append]

/-- A nonempty-prefixed append has nonempty data. -/
theorem append_data_ne_nil (p t : String) (hp : p.data ≠ []) :
    (p ++ t).data ≠ [] := by
  intro h
  rw [strdata] at h
  exact hp (List.append_eq_nil.mp h).1

theorem pyInt_empty : pyInt? "" = none := rfl

/-- Filename resolution always succeeds once `urlparse` has succeeded, and
the name is nonempty with a `.` in it. -/
theorem get_filename_total (md5s : String → String) (url : String)
    (resp : Response) (parsed : SplitUrl) (hp : pyUrlparse url = .ok parsed) :
    ∃ f, get_filename_from_url md5s url resp = .ok f ∧
      f ≠ "" ∧ pyInChar '.' f = true := by
  unfold get_filename_from_url
  simp only [hp]
  by_cases hc : nameAfterDisp (basename parsed.path) resp = "" ∨
      pyInChar '.' (nameAfterDisp (basename parsed.path) resp) = false
  · rw [if_pos hc]
    have hdot : pyInChar '.' (synthName md5s url resp) = true := by
      unfold synthName
      dsimp only
      split
      · simp [pyInChar_append, (by decide : pyInChar '.' ("." : String) = true)]
      · simp [pyInChar_append, (by decide : pyInChar '.' (".bin" : String) = true)]
    exact ⟨synthName md5s url resp, rfl, ne_empty_of_dot hdot, hdot⟩
  · rw [if_neg hc]
    push_neg at hc
    exact ⟨nameAfterDisp (basename parsed.path) resp, rfl, hc.1,
      by simpa using hc.2⟩

/-! ## Claims about the filename resolver -/

/-- Claim C5: for every URL whose URL-path's final segment is non-empty
and contains a `.`, the resolved filename equals that final segment,
regardless of any `Content-Disposition` or `Content-Type` header
values. -/
theorem C5_path_name_priority (md5s : String → String) (url : String)
    (resp : Response) (parsed : SplitUrl)
    (hp : pyUrlparse url = .ok parsed)
    (hne : basename parsed.path ≠ "")
    (hdot : pyInChar '.' (basename parsed.path) = true) :
    get_filename_from_url md5s url resp = .ok (basename parsed.path) := by
  have hcond : ¬(basename parsed.path = "" ∨
      pyInChar '.' (basename parsed.path) = false) := by
    rintro (h | h)
    · exact hne h
    · rw [hdot] at h; cases h
  unfold get_filename_from_url nameAfterDisp
  simp only [hp]
  rw [if_neg hcond, if_neg hcond]

theorem C5_witness :
    get_filename_from_url hexA "https://example.com/photos/sunset.jpg"
      { status := 200 } = .ok "sunset.jpg" :=
  C5_path_name_priority hexA "https://example.com/photos/sunset.jpg"
    { status := 200 } ⟨"https", "example.com", "/photos/sunset.jpg"⟩
    rfl (by decide) (by decide)

/-- Claim C9: when the URL path yields no dotted final segment and the
`Content-Disposition` header contains one `filename=` directive, the
resolver takes the text after `filename=`, strips surrounding quote
characters, and uses the result when it is a nonempty dotted name. -/
theorem C9_disposition_name (md5s : String → String) (url : String)
    (resp : Response) (parsed : SplitUrl) (disp : String) (a b : List Char)
    (hp : pyUrlparse url = .ok parsed)
    (hfall : basename parsed.path = "" ∨
      pyInChar '.' (basename parsed.path) = false)
    (hdisp : (resp.contentDisposition).getD "" = disp)
    (hfind : findSub ("filename=".data) disp.data = some (a, b))
    (hone : findSub ("filename=".data) b = none)
    (hne : stripQuotes ⟨b⟩ ≠ "")
    (hdot : pyInChar '.' (stripQuotes ⟨b⟩) = true) :
    get_filename_from_url md5s url resp = .ok (stripQuotes ⟨b⟩) := by
  have hin : pyContains disp "filename=" = true := by
    simp [pyContains, hfind]
  have hsp : pySplit1 disp "filename=" = ⟨b⟩ := by
    simp [pySplit1, hfind, hone]
  unfold get_filename_from_url nameAfterDisp
  simp only [hp, hdisp, hin, hsp, if_pos hfall, if_true]
  rw [if_neg]
  rintro (h | h)
  · exact hne h
  · rw [hdot] at h; cases h

theorem C9_witness :
    get_filename_from_url hexA "https://example.com/gallery/42" respDisp
      = .ok "pic.png" :=
  C9_disposition_name hexA "https://example.com/gallery/42" respDisp
    ⟨"https", "example.com", "/gallery/42"⟩ dispPic
    ("attachment; ".data) ((dq ++ "pic.png" ++ dq).data)
    rfl (Or.inr (by decide)) rfl (by decide) (by decide) (by decide) (by decide)

/-- Claim C2 counterexample: the claim says a synthesized name gets
extension `bin` whenever `Content-Type` does not start with `image/`,
but the source tests `'image/' in content_type` (substring): for
`Content-Type: x-image/png` (which does not start with `image/`) the
resolved extension is `png`, not `bin`. -/
theorem C2_counterexample :
    get_filename_from_url hexA "https://example.com/gallery" respX
      = .ok "downloaded_image_01234567.png" ∧
    pyStartsWith "x-image/png" "image/" = false ∧
    pyEndsWith "downloaded_image_01234567.png" ".bin" = false ∧
    pyEndsWith "downloaded_image_01234567.png" ".png" = true :=
  ⟨rfl, rfl, by decide, by decide⟩

/-- Claim C2 (amended): when a name must be synthesized, the extension is
`bin` exactly when `Content-Type` does not contain the substring
`image/`; when it does contain `image/`, the extension is the text
between the first and second `/`, with `jpeg` normalized to `jpg` (so
`image/jpeg` yields `jpg`). -/
theorem C2_extension_rule (md5s : String → String) (url : String)
    (resp : Response) (parsed : SplitUrl)
    (hp : pyUrlparse url = .ok parsed)
    (hfall : nameAfterDisp (basename parsed.path) resp = "" ∨
      pyInChar '.' (nameAfterDisp (basename parsed.path) resp) = false) :
    get_filename_from_url md5s url resp = .ok (synthName md5s url resp) ∧
    (pyContains ((resp.contentType).getD "") "image/" = false →
      synthName md5s url resp =
        "downloaded_image_" ++ pyTake (md5s url) 8 ++ ".bin") ∧
    (∀ ct, resp.contentType = some ct → pyContains ct "image/" = true →
      synthName md5s url resp =
        "downloaded_image_" ++ pyTake (md5s url) 8 ++ "."
          ++ (if pySplit1 ct "/" = "jpeg" then "jpg" else pySplit1 ct "/")) := by
  refine ⟨?_, ?_, ?_⟩
  · unfold get_filename_from_url
    simp only [hp]
    rw [if_pos hfall]
  · intro him
    unfold synthName
    simp [him]
  · intro ct hct him
    unfold synthName
    simp [hct, him]

theorem C2_witness :
    get_filename_from_url hexA "https://example.com/gallery" respJ
      = .ok (synthName hexA "https://example.com/gallery" respJ) ∧
    synthName hexA "https://example.com/gallery" respJ
      = "downloaded_image_01234567.jpg" := by
  have h := C2_extension_rule hexA "https://example.com/gallery" respJ
    ⟨"https", "example.com", "/gallery"⟩ rfl (Or.inr (by decide))
  refine ⟨h.1, ?_⟩
  have h3 := h.2.2 "image/jpeg" rfl (by decide)
  rw [h3]
  decide

/-- Claim C6 counterexample: the resolver is not total over all URL
strings — `urlparse` raises `ValueError: Invalid IPv6 URL` on `http://[`
(unbalanced bracket in the authority), and `get_filename_from_url`
propagates it. -/
theorem C6_counterexample :
    get_filename_from_url hexA "http://[" { status := 200 }
      = .error "Invalid IPv6 URL" := rfl

/-- Claim C6 (amended): for every URL that `urlparse` accepts (no
unbalanced square bracket in the authority) and every response header
mapping, `get_filename_from_url` returns without raising, and the
returned string is non-empty and contains at least one `.`. -/
theorem C6_resolver_total (md5s : String → String) (url : String)
    (resp : Response) (parsed : SplitUrl)
    (hp : pyUrlparse url = .ok parsed) :
    ∃ f, get_filename_from_url md5s url resp = .ok f ∧
      f ≠ "" ∧ pyInChar '.' f = true :=
  get_filename_total md5s url resp parsed hp

theorem C6_witness :
    ∃ f, get_filename_from_url hexA "https://example.com/x" { status := 200 }
      = .ok f ∧ f ≠ "" ∧ pyInChar '.' f = true :=
  C6_resolver_total hexA "https://example.com/x" { status := 200 }
    ⟨"https", "example.com", "/x"⟩ rfl

/-! ## Claim about the duplicate detector -/

/-- Claim C7: `is_duplicate_image` returns `false` when no file exists at
the path; when the file exists and is readable it returns `true` iff the
hash of the new bytes equals the hash of the existing file's full
contents; and when the existing file cannot be read it returns `false`
(fail open) instead of propagating the I/O error. -/
theorem C7_duplicate_detector (md5b : List Nat → String) (fs : FileSys)
    (p : String) (content : List Nat) :
    (fs.file p = none → is_duplicate_image md5b fs p content = false) ∧
    (∀ c, fs.file p = some c → fs.readable p = true →
      (is_duplicate_image md5b fs p content = true ↔
        md5b content = md5b c)) ∧
    (∀ c, fs.file p = some c → fs.readable p = false →
      is_duplicate_image md5b fs p content = false) := by
  refine ⟨?_, ?_, ?_⟩
  · intro h
    simp [is_duplicate_image, h]
  · intro c h hr
    simp [is_duplicate_image, h, hr]
  · intro c h hr
    simp [is_duplicate_image, h, hr]

theorem C7_witness :
    fsDup7.file "x" = some [1, 2] ∧
    (is_duplicate_image md5len fsDup7 "x" [1, 2] = true ↔
      md5len [1, 2] = md5len [1, 2]) :=
  ⟨rfl, (C7_duplicate_detector md5len fsDup7 "x" [1, 2]).2.1 [1, 2] rfl rfl⟩

/-! ## Claims about the orchestrator -/

/-- Claim C10: a response with no `Content-Type` header at all is treated
as content type `""`, rejected at the content-type gate with a message
reporting the (empty) observed content type, and never reaches filename
resolution or persistence (no write occurs). -/
theorem C10_missing_content_type (md5s : String → String)
    (md5b : List Nat → String) (env : Env) (url dir : String)
    (resp : Response) (parsed : SplitUrl)
    (hmk : env.mkdirError = none)
    (hp : pyUrlparse url = .ok parsed)
    (hnet : env.net = .ok resp)
    (hstatus : ¬(400 ≤ resp.status ∧ resp.status < 600))
    (hct : resp.contentType = none) :
    download_image md5s md5b env url dir = ⟨notImageMsg "", false, none⟩ := by
  have hbody : downloadBody md5s md5b env url dir
      = .ok ⟨notImageMsg "", false, none⟩ := by
    unfold downloadBody
    simp only [hmk, hp, hnet]
    rw [if_neg hstatus]
    simp only [hct, Option.getD_none]
    rw [if_pos (by decide : pyStartsWith "" "image/" = false)]
  unfold download_image
  rw [hbody]

theorem C10_witness :
    download_image hexA md5len envNoCT "https://example.com/x" "d"
      = ⟨notImageMsg "", false, none⟩ :=
  C10_missing_content_type hexA md5len envNoCT "https://example.com/x" "d"
    respNoCT ⟨"https", "example.com", "/x"⟩ rfl rfl rfl (by decide) rfl

/-- Claim C4: a response advertising a `Content-Length` above
10 × 1024 × 1024 bytes is rejected with `Failure` and no file write;
a response with no `Content-Length` header undergoes no size check and
is accepted (success) regardless of the actual body size. -/
theorem C4_size_gate (md5s : String → String) (md5b : List Nat → String)
    (env : Env) (url dir : String) (resp : Response) (parsed : SplitUrl)
    (hmk : env.mkdirError = none)
    (hp : pyUrlparse url = .ok parsed)
    (hnet : env.net = .ok resp)
    (hstatus : ¬(400 ≤ resp.status ∧ resp.status < 600))
    (htype : pyStartsWith ((resp.contentType).getD "") "image/" = true) :
    (∀ s n, resp.contentLength = some s → pyInt? s = some n →
      10 * 1024 * 1024 < n →
      download_image md5s md5b env url dir = ⟨sizeLimitMsg, false, none⟩) ∧
    (resp.contentLength = none → env.writeError = none →
      (download_image md5s md5b env url dir).success = true) := by
  constructor
  · intro s n hs hn hgt
    have hse : s ≠ "" := by
      intro he
      rw [he, pyInt_empty] at hn
      cases hn
    have hsg : sizeGate resp.contentLength = .ok true := by
      rw [hs]
      simp only [sizeGate]
      rw [if_neg hse, hn]
      simpa using hgt
    have hbody : downloadBody md5s md5b env url dir
        = .ok ⟨sizeLimitMsg, false, none⟩ := by
      unfold downloadBody
      simp only [hmk, hp, hnet]
      rw [if_neg hstatus]
      simp only [htype, hsg, Bool.true_eq_false, if_false, if_true]
    unfold download_image
    rw [hbody]
  · intro hcl hw
    have hsg : sizeGate resp.contentLength = .ok false := by
      rw [hcl]
      rfl
    obtain ⟨f, hf, -, -⟩ := get_filename_total md5s url resp parsed hp
    unfold download_image downloadBody
    simp only [hmk, hp, hnet]
    rw [if_neg hstatus]
    simp only [htype, hsg, hf, Bool.true_eq_false, if_false]
    cases hdup : is_duplicate_image md5b env.fs (posixJoin dir f) resp.content <;>
      simp [hdup, hw]

theorem C4_witness :
    download_image hexA md5len envBig "https://example.com/a.png" "d"
      = ⟨sizeLimitMsg, false, none⟩ :=
  (C4_size_gate hexA md5len envBig "https://example.com/a.png" "d" respBig
      ⟨"https", "example.com", "/a.png"⟩ rfl rfl rfl (by decide) (by decide)).1
    "11000000" 11000000 rfl (by decide) (by decide)

/-- Claim C1: when the fetched bytes already equal the (readable) content
stored at the resolved path, the orchestrator performs no file write,
leaves the filesystem untouched, and returns `Success` with the
already-present message; running the same fetch again from the resulting
state gives the same outcome, so fetching twice equals fetching once. -/
theorem C1_idempotent_refetch (md5s : String → String)
    (md5b : List Nat → String) (env : Env) (url dir : String)
    (resp : Response) (parsed : SplitUrl) (filename : String)
    (hmk : env.mkdirError = none)
    (hp : pyUrlparse url = .ok parsed)
    (hnet : env.net = .ok resp)
    (hstatus : ¬(400 ≤ resp.status ∧ resp.status < 600))
    (htype : pyStartsWith ((resp.contentType).getD "") "image/" = true)
    (hsize : sizeGate resp.contentLength = .ok false)
    (hname : get_filename_from_url md5s url resp = .ok filename)
    (hstored : env.fs.file (posixJoin dir filename) = some resp.content)
    (hread : env.fs.readable (posixJoin dir filename) = true) :
    download_image md5s md5b env url dir
      = ⟨duplicateMsg filename, true, none⟩ ∧
    applyWrite env.fs (download_image md5s md5b env url dir).written
      = env.fs ∧
    download_image md5s md5b
        { env with
          fs := applyWrite env.fs
            (download_image md5s md5b env url dir).written } url dir
      = download_image md5s md5b env url dir := by
  have hdup : is_duplicate_image md5b env.fs (posixJoin dir filename)
      resp.content = true := by
    simp [is_duplicate_image, hstored, hread]
  have hbody : downloadBody md5s md5b env url dir
      = .ok ⟨duplicateMsg filename, true, none⟩ := by
    unfold downloadBody
    simp only [hmk, hp, hnet]
    rw [if_neg hstatus]
    simp only [htype, hsize, hname, hdup, Bool.true_eq_false,
      Bool.false_eq_true, if_false, if_true]
  have h1 : download_image md5s md5b env url dir
      = ⟨duplicateMsg filename, true, none⟩ := by
    unfold download_image
    rw [hbody]
  refine ⟨h1, ?_, ?_⟩
  · rw [h1]
    rfl
  · rw [h1]
    exact h1

theorem C1_witness :
    download_image hexA md5len envDup
        "https://example.com/photos/sunset.jpg" "d"
      = ⟨duplicateMsg "sunset.jpg", true, none⟩ ∧
    applyWrite envDup.fs (download_image hexA md5len envDup
        "https://example.com/photos/sunset.jpg" "d").written
      = envDup.fs ∧
    download_image hexA md5len
        { envDup with
          fs := applyWrite envDup.fs
            (download_image hexA md5len envDup
              "https://example.com/photos/sunset.jpg" "d").written }
        "https://example.com/photos/sunset.jpg" "d"
      = download_image hexA md5len envDup
          "https://example.com/photos/sunset.jpg" "d" :=
  C1_idempotent_refetch hexA md5len envDup
    "https://example.com/photos/sunset.jpg" "d" respJpeg
    ⟨"https", "example.com", "/photos/sunset.jpg"⟩ "sunset.jpg"
    rfl rfl rfl (by decide) (by decide) rfl rfl (by decide) rfl

/-- Claim C3: every failure arising in the body of `download_image` —
network exception, HTTP error, or any other exception (directory
creation, `int()` parse, `urlparse`, file write) — is converted by the
`except` clauses into a descriptive `Failure` outcome (non-empty message
plus `False` flag) with no file written; no fault propagates to the
caller (the handler is total over the exception type). -/
theorem C3_failure_containment (md5s : String → String)
    (md5b : List Nat → String) (env : Env) (url dir : String) (e : Exc)
    (h : downloadBody md5s md5b env url dir = .error e) :
    download_image md5s md5b env url dir = ⟨excMessage e, false, none⟩ ∧
    (excMessage e).data ≠ [] := by
  constructor
  · unfold download_image
    rw [h]
  · cases e with
    | timeout => decide
    | httpError s =>
      exact append_data_ne_nil
        "✗ HTTP error: The community server responded with "
        (toString s) (by decide)
    | connFailure => decide
    | requestException d =>
      exact append_data_ne_nil "✗ Network error: " d (by decide)
    | other d =>
      exact append_data_ne_nil "✗ An unexpected error occurred: " d
        (by decide)

theorem C3_witness :
    download_image hexA md5len envT "u" "d"
      = ⟨excMessage .timeout, false, none⟩ :=
  (C3_failure_containment hexA md5len envT "u" "d" .timeout rfl).1

/-- Claim C8 counterexample: the claim demands a `Failure` for every
non-2xx status, but `raise_for_status` raises only for 400-599; a 304
`image/jpeg` response passes every gate and the call succeeds. -/
theorem C8_counterexample :
    (download_image hexA md5len env304 "https://example.com/a.png" "d").success
      = true ∧
    ¬(200 ≤ resp304.status ∧ resp304.status < 300) :=
  ⟨rfl, by decide⟩

/-- Claim C8 (amended): for every response whose status code is in
400-599 the orchestrator returns a `Failure` whose message carries that
status code, and that message is distinct from the timeout,
connection-failure, and other-network-error messages; statuses outside
2xx but also outside 400-599 (1xx, 3xx) are not rejected by this gate. -/
theorem C8_http_status_gate (md5s : String → String)
    (md5b : List Nat → String) (env : Env) (url dir : String)
    (resp : Response) (parsed : SplitUrl)
    (hmk : env.mkdirError = none)
    (hp : pyUrlparse url = .ok parsed)
    (hnet : env.net = .ok resp)
    (hlo : 400 ≤ resp.status) (hhi : resp.status < 600) :
    download_image md5s md5b env url dir
      = ⟨httpErrorMsg resp.status, false, none⟩ ∧
    httpErrorMsg resp.status ≠ timeoutMsg ∧
    httpErrorMsg resp.status ≠ connectionErrorMsg ∧
    ∀ d, httpErrorMsg resp.status ≠ networkErrorMsg d := by
  have hbody : downloadBody md5s md5b env url dir
      = .error (.httpError resp.status) := by
    unfold downloadBody
    simp only [hmk, hp, hnet]
    rw [if_pos ⟨hlo, hhi⟩]
  refine ⟨?_, ?_, ?_, ?_⟩
  · unfold download_image
    rw [hbody]
    rfl
  · unfold httpErrorMsg
    rw [← str_append_empty timeoutMsg]
    exact ne_of_take3 (toString resp.status) "" (by decide) (by decide)
      (by decide)
  · unfold httpErrorMsg
    rw [← str_append_empty connectionErrorMsg]
    exact ne_of_take3 (toString resp.status) "" (by decide) (by decide)
      (by decide)
  · intro d
    unfold httpErrorMsg networkErrorMsg
    exact ne_of_take3 (toString resp.status) d (by decide) (by decide)
      (by decide)

theorem C8_witness :
    download_image hexA md5len env404 "https://example.com/a.png" "d"
      = ⟨httpErrorMsg 404, false, none⟩ :=
  (C8_http_status_gate hexA md5len env404 "https://example.com/a.png" "d"
    resp404 ⟨"https", "example.com", "/a.png"⟩ rfl rfl rfl (by decide)
    (by decide)).1

end UbuntuFetcher
